import Mathlib

/-
  Verification of the JS-error capture script (src/beforeStreamlit.py).

  A shallow embedding of the script's pure logic: the error-signature and
  deduplication pipeline (generate_error_signature, handle_error,
  save_error_to_json, initialize_error_json), the error-event callbacks
  (on_page_error, on_console), the navigation guard (handle_navigation),
  the Phase-A click sweep (click_all_links_and_buttons), the Phase-C
  exploration loop (recursive_monkey_exploration), the code-context
  extraction (extract_code_context) and the Phase-B suggestion loop of
  test_input_fields_specifically.

  Conventions used throughout:
  * Python values that flow through the error details (ints, strings, None)
    are embedded as `PyVal`, with Python truthiness and str() conversion.
  * `hashlib.md5(...).hexdigest()` is an external, deterministic function of
    its input string; every definition and theorem is parameterized over an
    arbitrary `md5 : String → String`, so nothing proved here depends on any
    property of the hash beyond it being a function.
  * Browser/driver calls (element queries, clicks, page.goto) are external
    collaborators; their observable results enter the definitions as explicit
    inputs (element lists, success flags), and the embedded code is the
    script's own decision logic around them.
  * Timestamps (datetime.now()) and the random screenshot file names are
    inert payload: they are never read by any branch of the embedded logic,
    so they are left out of the records.
-/

set_option maxRecDepth 40000

/-- Embedded Python value as it appears in the error-detail dictionaries:
an int, a string, or None. -/
inductive PyVal where
  | none : PyVal
  | int (n : Int) : PyVal
  | str (s : String) : PyVal
deriving DecidableEq, Repr

/-- Python truthiness for the embedded values: None is falsy, an int is
truthy iff nonzero, a string is truthy iff nonempty. -/
def PyVal.truthy : PyVal → Bool
  | .none => false
  | .int n => n != 0
  | .str s => s != ""

/-- Python str() on the embedded values. -/
def PyVal.pyStr : PyVal → String
  | .none => "None"
  | .int n => toString n
  | .str s => s

/-- The message truncation used by generate_error_signature:
`error_message[:200] if error_message else ""`. -/
def truncate_message (error_message : String) : String :=
  if error_message != "" then error_message.take 200 else ""

/-- generate_error_signature (src/beforeStreamlit.py:153-166): builds the
signature parts from message, filename, lineno and colno — the error_type
argument is accepted but never used — joins them with "|" and hashes the
result with md5. -/
def generate_error_signature (md5 : String → String) (error_type : String)
    (error_message : String) (filename : PyVal) (lineno : PyVal)
    (colno : PyVal) : String :=
  let signature_parts : List String :=
    [ truncate_message error_message
    , if filename.truthy then filename.pyStr else ""
    , if lineno.truthy then lineno.pyStr else ""
    , if colno.truthy then colno.pyStr else "" ]
  let signature_string := String.intercalate "|" signature_parts
  md5 signature_string

/-- The optional error-details dictionary handed to handle_error by the four
capture channels.  Only the keys the embedded logic reads are kept:
filename/lineno/colno (absent key ↦ Option.none, present None ↦ some .none),
the navigation-context tag and the navigation URL added while a navigation
is in progress.  Keys such as stack, message or clickContext are only
printed or stored verbatim and never branch the logic. -/
structure RawDetails where
  filename : Option PyVal
  lineno : Option PyVal
  colno : Option PyVal
  navigation_context : Bool := false
  navigation_url : Option String := Option.none
deriving DecidableEq, Repr

/-- `error_details.get('filename', 'Unknown') if error_details else 'Unknown'`. -/
def details_filename (error_details : Option RawDetails) : PyVal :=
  match error_details with
  | some d => d.filename.getD (.str "Unknown")
  | Option.none => .str "Unknown"

/-- `error_details.get('lineno', 'Unknown') if error_details else 'Unknown'`. -/
def details_lineno (error_details : Option RawDetails) : PyVal :=
  match error_details with
  | some d => d.lineno.getD (.str "Unknown")
  | Option.none => .str "Unknown"

/-- `error_details.get('colno', 'Unknown') if error_details else 'Unknown'`. -/
def details_colno (error_details : Option RawDetails) : PyVal :=
  match error_details with
  | some d => d.colno.getD (.str "Unknown")
  | Option.none => .str "Unknown"

/-- One persisted entry of the errors array (the error_detail dict built by
handle_error, src/beforeStreamlit.py:226-240). -/
structure ErrorRecord where
  error_signature : String
  error_type : String
  error_message : String
  url : String
  filename : PyVal
  line_number : PyVal
  column_number : PyVal
  navigation_context : Bool := false
deriving DecidableEq, Repr

/-- The session_info object of the persisted ledger.  total_errors is
optional because initialize_error_json writes session_info without it; the
timestamp/base_url/script_name/last_updated strings are inert payload. -/
structure SessionInfo where
  total_errors : Option Nat
deriving DecidableEq, Repr

/-- The persisted error.json ledger: session_info plus the errors array. -/
structure ErrorData where
  session_info : SessionInfo
  errors : List ErrorRecord
deriving DecidableEq, Repr

/-- initialize_error_json (src/beforeStreamlit.py:31-54): writes a fresh
ledger whose session_info carries no total_errors field and whose errors
array is empty. -/
def initialize_error_json : ErrorData :=
  { session_info := { total_errors := Option.none }, errors := [] }

/-- save_error_to_json (src/beforeStreamlit.py:116-150): append the new
error to the loaded ledger's errors array and set
session_info.total_errors to the new array length, then write back. -/
def save_error_to_json (error_data : ErrorData) (error_detail : ErrorRecord) :
    ErrorData :=
  let errors := error_data.errors ++ [error_detail]
  { session_info := { total_errors := some errors.length }, errors := errors }

/-- The mutable session state touched by the pipeline: the in-memory
seen_errors signature set (embedded as a list, membership is what matters)
and the persisted ledger. -/
structure SessionState where
  seen_errors : List String
  ledger : ErrorData
deriving DecidableEq, Repr

/-- The session state right after initialize_error_json runs: empty
signature set, fresh ledger. -/
def initSessionState : SessionState :=
  { seen_errors := [], ledger := initialize_error_json }

/-- handle_error (src/beforeStreamlit.py:169-266).  In order: compute the
signature from message and details; return unchanged if the signature is in
seen_errors (fast path); return unchanged if some persisted record matches
on the exact (error_message, filename, line_number) triple (slow path);
otherwise add the signature to seen_errors, build the record and persist it
with save_error_to_json.  The `filename` parameter is the screenshot file
name, which the body never uses.  `page_url` is page.url. -/
def handle_error (md5 : String → String) (st : SessionState)
    (page_url : String) (filename : String) (err : String)
    (error_type : String) (error_details : Option RawDetails) : SessionState :=
  let error_message := err
  let filename_info := details_filename error_details
  let lineno_info := details_lineno error_details
  let colno_info := details_colno error_details
  let error_signature :=
    generate_error_signature md5 error_type error_message filename_info
      lineno_info colno_info
  if error_signature ∈ st.seen_errors then st
  else if st.ledger.errors.any (fun existing_error =>
      decide (existing_error.error_message = error_message ∧
        existing_error.filename = filename_info ∧
        existing_error.line_number = lineno_info)) then st
  else
    let seen_errors := error_signature :: st.seen_errors
    let error_detail : ErrorRecord :=
      { error_signature := error_signature
      , error_type := error_type
      , error_message := error_message
      , url := page_url
      , filename := filename_info
      , line_number := lineno_info
      , column_number := colno_info
      , navigation_context :=
          (error_details.map (·.navigation_context)).getD false }
    { seen_errors := seen_errors
    , ledger := save_error_to_json st.ledger error_detail }

/-- One raw fault event as delivered to handle_error by some channel:
the page URL at handling time, the screenshot name, the stringified error,
the channel's error_type and the channel-built details. -/
structure RawEvent where
  page_url : String
  png_name : String
  err : String
  error_type : String
  error_details : Option RawDetails
deriving DecidableEq, Repr

/-- The signature handle_error computes for an event. -/
def eventSignature (md5 : String → String) (e : RawEvent) : String :=
  generate_error_signature md5 e.error_type e.err
    (details_filename e.error_details) (details_lineno e.error_details)
    (details_colno e.error_details)

/-- Feed one event through handle_error. -/
def handleEvent (md5 : String → String) (st : SessionState) (e : RawEvent) :
    SessionState :=
  handle_error md5 st e.page_url e.png_name e.err e.error_type e.error_details

/-- One session: initialize_error_json, then handle every arriving raw
fault event in order. -/
def run_session (md5 : String → String) (events : List RawEvent) :
    SessionState :=
  events.foldl (handleEvent md5) initSessionState

/-- One entry of the navigation_errors buffer: the stringified error and
the details dict captured with it. -/
structure BufferedNav where
  error : String
  details : RawDetails
deriving DecidableEq, Repr

/-- The navigation-guard globals: navigation_in_progress and the
navigation_errors buffer. -/
structure GuardState where
  navigation_in_progress : Bool
  navigation_errors : List BufferedNav
deriving DecidableEq, Repr

/-- The error_details dict built by on_page_error and on_console before
calling handle_error: filename/lineno/colno from the located position, plus
the navigation-context tag and URL added when navigation_in_progress.
`loc` abstracts the located (filename, lineno, colno): for on_page_error
the re.search over the stack trace, for on_console Playwright's
msg.location() or the text-pattern fallbacks; Option.none means no
location was found, so the details carry no filename/lineno/colno keys. -/
def located_error_details (loc : Option (String × Int × Int))
    (nav_in_progress : Bool) (page_url : String) : RawDetails :=
  { filename := loc.map (fun l => .str l.1)
  , lineno := loc.map (fun l => .int l.2.1)
  , colno := loc.map (fun l => .int l.2.2)
  , navigation_context := nav_in_progress
  , navigation_url := if nav_in_progress then some page_url else Option.none }

/-- on_page_error (src/beforeStreamlit.py:1238-1278): build the details;
while navigation_in_progress additionally tag them with navigation context
and append the event to the navigation_errors buffer; then hand the event
to handle_error with error_type "page_error" in the same invocation. -/
def on_page_error (md5 : String → String) (gs : GuardState)
    (st : SessionState) (page_url : String) (png_name : String)
    (err : String) (stack_loc : Option (String × Int × Int)) :
    GuardState × SessionState :=
  let error_details :=
    located_error_details stack_loc gs.navigation_in_progress page_url
  let gs :=
    if gs.navigation_in_progress then
      { gs with navigation_errors :=
          gs.navigation_errors ++ [{ error := err, details := error_details }] }
    else gs
  (gs, handle_error md5 st page_url png_name err "page_error"
        (some error_details))

/-- on_console (src/beforeStreamlit.py:1282-1346): only messages of type
"error" are handled; build the details from the message location; while
navigation_in_progress tag and buffer the event; then hand it to
handle_error with error_type "console_error" in the same invocation. -/
def on_console (md5 : String → String) (gs : GuardState) (st : SessionState)
    (page_url : String) (png_name : String) (msg_type : String)
    (msg_text : String) (loc : Option (String × Int × Int)) :
    GuardState × SessionState :=
  if msg_type = "error" then
    let error_details :=
      located_error_details loc gs.navigation_in_progress page_url
    let gs :=
      if gs.navigation_in_progress then
        { gs with navigation_errors :=
            gs.navigation_errors ++
              [{ error := msg_text, details := error_details }] }
      else gs
    (gs, handle_error md5 st page_url png_name msg_text "console_error"
          (some error_details))
  else (gs, st)

/-- Helper for urlparse_netloc: the characters after the first "://", if
the URL has one. -/
def afterSchemeSep : List Char → Option (List Char)
  | [] => Option.none
  | ':' :: '/' :: '/' :: rest => some rest
  | _ :: rest => afterSchemeSep rest

/-- A character that may belong to the netloc: it ends at the next '/',
'?' or '#'. -/
def netlocChar (c : Char) : Bool :=
  c != '/' && c != '?' && c != '#'

/-- Modelled from Python urllib.parse.urlparse(url).netloc: the authority
component after "://" (or after a leading "//"), up to the next '/', '?'
or '#'; empty when the URL has neither. -/
def urlparse_netloc (url : String) : String :=
  match afterSchemeSep url.data with
  | some rest => String.mk (rest.takeWhile netlocChar)
  | Option.none =>
    match url.data with
    | '/' :: '/' :: rest => String.mk (rest.takeWhile netlocChar)
    | _ => ""

/-- _extract_domain (src/beforeStreamlit.py:1080-1087), also the local
extract_domain inside handle_navigation: urlparse(url).netloc. -/
def extract_domain (url : String) : String :=
  urlparse_netloc url

/-- _is_external_link (src/beforeStreamlit.py:1089-1106): falsy href or
target_domain is internal; an href with no netloc of its own is internal;
otherwise external iff the link's netloc differs from the target domain. -/
def _is_external_link (href : String) (target_domain : String) : Bool :=
  if href = "" || target_domain = "" then false
  else
    let link_domain := urlparse_netloc href
    if link_domain = "" then false
    else link_domain != target_domain

/-- _is_same_domain (src/beforeStreamlit.py:1108-1114). -/
def _is_same_domain (url : String) (target_domain : String) : Bool :=
  if url = "" || target_domain = "" then false
  else extract_domain url == target_domain

/-- Outcomes of the five driver calls the recovery ladder of
handle_navigation can make: goto with wait_until="domcontentloaded",
reload, goto with "load", goto with "commit", goto with no wait condition.
Each flag says whether that call would return without raising. -/
structure NavEnv where
  goto_domcontentloaded_ok : Bool
  reload_ok : Bool
  goto_load_ok : Bool
  goto_commit_ok : Bool
  goto_plain_ok : Bool
deriving DecidableEq, Repr

/-- What handle_navigation leaves behind: the guard state, the pipeline
state, the page URL, and the return_success flag. -/
structure NavResult where
  guard : GuardState
  session : SessionState
  page_url : String
  return_success : Bool
deriving DecidableEq, Repr

/-- The flush loop of handle_navigation (src/beforeStreamlit.py:1415-1428):
each buffered event has navigation_url set to the new URL and is handed to
handle_error with error_type "navigation_error".  The screenshot name is
random in the source and never read by handle_error. -/
def flush_navigation_errors (md5 : String → String) (st : SessionState)
    (new_url : String) (buffered : List BufferedNav) : SessionState :=
  buffered.foldl (fun s nav_error =>
    let error_details :=
      { nav_error.details with navigation_url := some new_url }
    handle_error md5 s new_url "navigation_error.png" nav_error.error
      "navigation_error" (some error_details)) st

/-- handle_navigation (src/beforeStreamlit.py:1390-1500).  No-op when the
new URL is the original.  Otherwise: set navigation_in_progress, reset the
navigation_errors buffer (`buffered` is what the error callbacks append to
it during the settle wait), flush the buffer to the pipeline, then try the
five recovery methods in order — goto(domcontentloaded); reload but only if
the current domain still equals the origin's; goto(load); goto(commit);
goto with no wait — and finally clear navigation_in_progress whether or not
any method succeeded.  At the time the handler runs the page is at
`new_url`, and a failed driver call leaves the page URL unchanged. -/
def handle_navigation (md5 : String → String) (env : NavEnv)
    (original_url : String) (gs : GuardState) (st : SessionState)
    (new_url : String) (buffered : List BufferedNav) : NavResult :=
  if new_url = original_url then
    -- the source returns immediately; return_success is never set here
    { guard := gs, session := st, page_url := new_url
    , return_success := false }
  else
    let gs : GuardState :=
      { navigation_in_progress := true, navigation_errors := buffered }
    let st := flush_navigation_errors md5 st new_url buffered
    -- Method 1: direct navigation
    if env.goto_domcontentloaded_ok then
      { guard := { gs with navigation_in_progress := false }
      , session := st, page_url := original_url, return_success := true }
    -- Method 2: reload, only if still on the original domain
    else if extract_domain new_url == extract_domain original_url
        && env.reload_ok then
      { guard := { gs with navigation_in_progress := false }
      , session := st, page_url := new_url, return_success := true }
    -- Method 3: goto with wait_until="load", longer timeout
    else if env.goto_load_ok then
      { guard := { gs with navigation_in_progress := false }
      , session := st, page_url := original_url, return_success := true }
    -- Method 4: goto with wait_until="commit"
    else if env.goto_commit_ok then
      { guard := { gs with navigation_in_progress := false }
      , session := st, page_url := original_url, return_success := true }
    -- Method 5: goto with no particular wait condition
    else if env.goto_plain_ok then
      { guard := { gs with navigation_in_progress := false }
      , session := st, page_url := original_url, return_success := true }
    else
      { guard := { gs with navigation_in_progress := false }
      , session := st, page_url := new_url, return_success := false }

/-- One DOM element as observed by the driver calls of the Phase-A sweep
(click_all_links_and_buttons): the per-element evaluate results and
predicates the sweep reads. -/
structure RawElement where
  tag_name : String
  id : String
  className : String
  text : String
  href : String
  target : String
  is_visible : Bool
  is_enabled : Bool
  dom_path : String
deriving DecidableEq, Repr

/-- The element_info dict collected for each visible clickable element
(src/beforeStreamlit.py:848-883); is_external is computed only for
anchors, via _is_external_link on el.href. -/
structure ClickableInfo where
  element : RawElement
  is_external : Bool
deriving DecidableEq, Repr

/-- The discovery loop of click_all_links_and_buttons
(src/beforeStreamlit.py:848-883): keep every visible element, computing
is_external for anchors.  The second component is the value the local
variable `tag_name` holds once the loop finishes — the tag of the last
visible element processed — which the click loop below reads at line 907. -/
def collect_clickable (target_domain : String) (elements : List RawElement) :
    List ClickableInfo × Option String :=
  elements.foldl (fun acc element =>
    if element.is_visible then
      let tag_name := element.tag_name
      let is_external :=
        if tag_name = "a" then _is_external_link element.href target_domain
        else false
      (acc.1 ++ [{ element := element, is_external := is_external }],
       some tag_name)
    else acc) ([], Option.none)

/-- The clicked_elements dedup set (in insertion order) and the dom paths
of the elements actually clicked, in click order. -/
structure ClickSweepResult where
  clicked_elements : List String
  clicks : List String
deriving DecidableEq, Repr

/-- One iteration of the click loop (src/beforeStreamlit.py:890-938):
skip stable-DOM-path duplicates (the path is recorded before any other
check); skip external links; skip links opening a new tab or window — but
the source consults the stale `tag_name` leaked from the discovery loop,
not the current element's tag, so that check only runs when the LAST
discovered element was an anchor; skip disabled elements; otherwise
click. -/
def click_sweep_step (last_tag : Option String) (acc : ClickSweepResult)
    (info : ClickableInfo) : ClickSweepResult :=
  let element_path := info.element.dom_path
  if element_path ∈ acc.clicked_elements then acc
  else
    let acc :=
      { acc with clicked_elements := acc.clicked_elements ++ [element_path] }
    if info.is_external then acc
    else if last_tag = some "a" ∧
        info.element.target ∈ ["_blank", "_new", "_top"] then acc
    else if !info.element.is_enabled then acc
    else { acc with clicks := acc.clicks ++ [element_path] }

/-- click_all_links_and_buttons (src/beforeStreamlit.py:770-1048), reduced
to its decision logic: discover the clickable elements, then run the click
loop.  Returns total_elements_found and the sweep result. -/
def click_all_links_and_buttons (target_domain : String)
    (elements : List RawElement) : Nat × ClickSweepResult :=
  let discovered := collect_clickable target_domain elements
  let all_clickable_elements := discovered.1
  let tag_name := discovered.2
  (all_clickable_elements.length,
   all_clickable_elements.foldl (click_sweep_step tag_name) ⟨[], []⟩)

/-- MAX_ACTIONS (src/beforeStreamlit.py:18). -/
def MAX_ACTIONS : Nat := 50

/-- recursive_monkey_exploration (src/beforeStreamlit.py:687-742).
`discover` gives the xpaths of the elements the k-th discovery call finds
(the page changes between steps); `choose` resolves random.choice by
selecting an index into the unvisited list.  Returns the visited set and
the number of interactions performed.  Stops at the MAX_ACTIONS ceiling,
when discovery finds nothing, or when every discovered element has been
visited; interacting increments actions_performed and recurses. -/
def recursive_monkey_exploration (discover : Nat → List String)
    (choose : Nat → Nat) (visited_selectors : List String)
    (actions_performed : Nat) (actions_done : Nat) : List String × Nat :=
  if h : actions_done ≥ MAX_ACTIONS then (visited_selectors, actions_performed)
  else
    let all_elements := discover actions_done
    if all_elements = [] then (visited_selectors, actions_performed)
    else
      let unvisited :=
        all_elements.filter (fun xpath => decide (xpath ∉ visited_selectors))
      if unvisited = [] then (visited_selectors, actions_performed)
      else
        let xpath := unvisited.getD (choose actions_done % unvisited.length) ""
        recursive_monkey_exploration discover choose (xpath :: visited_selectors)
          (actions_performed + 1) (actions_done + 1)
termination_by MAX_ACTIONS - actions_done
decreasing_by simp only [not_le] at h; omega

/-- Models Python source_code.split('\n') at the character level: split at
every newline, always yielding at least one (possibly empty) piece. -/
def py_split_newline_data : List Char → List (List Char)
  | [] => [[]]
  | c :: cs =>
    let rest := py_split_newline_data cs
    if c = '\n' then [] :: rest
    else
      match rest with
      | [] => [[c]]
      | r :: rs => (c :: r) :: rs

/-- Python source_code.split('\n') on strings. -/
def py_split_newline (s : String) : List String :=
  (py_split_newline_data s.data).map String.mk

/-- extract_code_context (src/beforeStreamlit.py:94-114), as the list of
rendered context lines: lines = source.split('\n');
start_line = max(0, line_number - 31);
end_line = min(len(lines) - 1, line_number + 29); for each i in
range(start_line, end_line + 1) render marker ++ line, the marker being
">>> " exactly when i == line_number - 1 and four spaces otherwise. -/
def extract_code_context (source_code : String) (line_number : Int) :
    List String :=
  let lines := py_split_newline source_code
  let start_line : Int := max 0 (line_number - 31)
  let end_line : Int := min ((lines.length : Int) - 1) (line_number + 29)
  (List.range' start_line.toNat (end_line + 1 - start_line).toNat).map
    (fun i =>
      let line_content := lines.getD i ""
      let marker := if (i : Int) = line_number - 1 then ">>> " else "    "
      marker ++ line_content)

/-- The string extract_code_context returns: the rendered lines each
followed by a newline, concatenated, then Python-stripped. -/
def extract_code_context_string (source_code : String) (line_number : Int) :
    String :=
  (String.join ((extract_code_context source_code line_number).map
    (fun l => l ++ "\n"))).trim

/-- Whether a rendered context line carries the visual error marker. -/
def starts_with_marker (s : String) : Bool :=
  s.data.take 4 == ">>> ".data

/-- The dropdown-suggestion loop of test_input_fields_specifically
(src/beforeStreamlit.py:603-633), iterating j over the snapshot
`dropdown_elements` taken after the first probe.  Suggestion handles are
abstract names; `refresh j` is what _find_dropdown_suggestions returns
after re-typing the probe character following the click on suggestion j.
Returns the handles clicked, in order.  The body's
`suggestion = new_dropdown[j + 1]` assignment rebinds the loop variable,
but the for statement rebinds `suggestion` from `dropdown_elements` at the
top of the next iteration, so the refreshed handle is never the one
clicked; the refreshed query only decides whether to break. -/
def suggestion_click_loop_go (dropdown_elements : List String)
    (refresh : Nat → List String) (j : Nat) (clicks : List String) :
    List String :=
  if j < dropdown_elements.length then
    let suggestion := dropdown_elements.getD j ""
    let clicks := clicks ++ [suggestion]
    if j < dropdown_elements.length - 1 then
      let new_dropdown := refresh j
      if new_dropdown ≠ [] ∧ new_dropdown.length > j + 1 then
        suggestion_click_loop_go dropdown_elements refresh (j + 1) clicks
      else clicks
    else suggestion_click_loop_go dropdown_elements refresh (j + 1) clicks
  else clicks
termination_by dropdown_elements.length - j
decreasing_by all_goals omega

/-- The suggestion-clicking pass for one input field, from the snapshot
taken after the first probe character. -/
def test_input_suggestion_clicks (dropdown_elements : List String)
    (refresh : Nat → List String) : List String :=
  suggestion_click_loop_go dropdown_elements refresh 0 []

/-! ### Helper lemmas -/

theorem take200_eq_nil_iff (s : String) : s.take 200 = "" ↔ s = "" := by
  constructor
  · intro h
    rw [String.take_eq] at h
    have h2 : s.data.take 200 = [] := congrArg String.data h
    rw [List.take_eq_nil_iff] at h2
    rcases h2 with h2 | h2
    · omega
    · exact String.ext h2
  · intro h
    subst h
    rfl

theorem truncate_message_eq_take (error_message : String) :
    truncate_message error_message = error_message.take 200 := by
  unfold truncate_message
  split
  · rfl
  · next h =>
    simp only [bne_iff_ne, ne_eq, not_not] at h
    subst h
    rfl

/-- The signature is a function of the four components only: equal
truncated messages, filenames, line numbers and column numbers give equal
signatures, for any error types. -/
theorem generate_error_signature_congr (md5 : String → String)
    (t1 t2 m1 m2 : String) (f1 f2 l1 l2 c1 c2 : PyVal)
    (hm : m1.take 200 = m2.take 200) (hf : f1 = f2) (hl : l1 = l2)
    (hc : c1 = c2) :
    generate_error_signature md5 t1 m1 f1 l1 c1
      = generate_error_signature md5 t2 m2 f2 l2 c2 := by
  subst hf hl hc
  unfold generate_error_signature
  rw [truncate_message_eq_take, truncate_message_eq_take, hm]

/-- A state where handle_error cannot duplicate: every persisted record's
signature is in seen_errors, and persisted signatures are pairwise
distinct. -/
def SessionInv (st : SessionState) : Prop :=
  (∀ r ∈ st.ledger.errors, r.error_signature ∈ st.seen_errors) ∧
  st.ledger.errors.Pairwise
    (fun a b => a.error_signature ≠ b.error_signature)

theorem sessionInv_init : SessionInv initSessionState := by
  constructor
  · intro r hr
    simp [initSessionState, initialize_error_json] at hr
  · simp [initSessionState, initialize_error_json]

theorem handle_error_of_seen (md5 : String → String) (st : SessionState)
    (page_url filename err error_type : String)
    (error_details : Option RawDetails)
    (h : generate_error_signature md5 error_type err
        (details_filename error_details) (details_lineno error_details)
        (details_colno error_details) ∈ st.seen_errors) :
    handle_error md5 st page_url filename err error_type error_details = st := by
  unfold handle_error
  rw [if_pos h]

theorem sessionInv_handle_error (md5 : String → String) (st : SessionState)
    (page_url filename err error_type : String)
    (error_details : Option RawDetails) (h : SessionInv st) :
    SessionInv (handle_error md5 st page_url filename err error_type
      error_details) := by
  obtain ⟨hmem, hpair⟩ := h
  unfold handle_error
  dsimp only
  split
  · exact ⟨hmem, hpair⟩
  · split
    · exact ⟨hmem, hpair⟩
    · next hseen _ =>
      constructor
      · intro r hr
        simp only [save_error_to_json, List.mem_append, List.mem_singleton]
          at hr
        rcases hr with hr | hr
        · exact List.mem_cons_of_mem _ (hmem r hr)
        · subst hr
          exact List.mem_cons_self _ _
      · simp only [save_error_to_json, List.pairwise_append,
          List.pairwise_cons, List.mem_singleton]
        refine ⟨hpair, by simp, ?_⟩
        intro a ha b hb
        subst hb
        intro hab
        dsimp only at hab
        exact hseen (hab ▸ hmem a ha)

theorem sessionInv_foldl (md5 : String → String) (events : List RawEvent)
    (st : SessionState) (h : SessionInv st) :
    SessionInv (events.foldl (handleEvent md5) st) := by
  induction events generalizing st with
  | nil => exact h
  | cons e es ih =>
    exact ih _ (sessionInv_handle_error md5 st e.page_url e.png_name e.err
      e.error_type e.error_details h)

theorem countP_sig_le_one (l : List ErrorRecord) (s : String)
    (h : l.Pairwise (fun a b => a.error_signature ≠ b.error_signature)) :
    l.countP (fun r => decide (r.error_signature = s)) ≤ 1 := by
  induction l with
  | nil => simp
  | cons a l ih =>
    rw [List.countP_cons]
    rcases List.pairwise_cons.mp h with ⟨ha, hl⟩
    by_cases hs : a.error_signature = s
    · have hzero : l.countP (fun r => decide (r.error_signature = s)) = 0 := by
        rw [List.countP_eq_zero]
        intro b hb
        simp only [decide_eq_true_eq]
        intro hbs
        exact (ha b hb) (hs.trans hbs.symm)
      simp [hzero, hs]
    · simp [hs]
      exact ih hl

theorem handle_error_init_seen (md5 : String → String)
    (page_url filename err error_type : String)
    (error_details : Option RawDetails) :
    (handle_error md5 initSessionState page_url filename err error_type
      error_details).seen_errors
    = [generate_error_signature md5 error_type err
        (details_filename error_details) (details_lineno error_details)
        (details_colno error_details)] := by
  unfold handle_error initSessionState initialize_error_json
  simp

theorem foldl_save_errors (records : List ErrorRecord) (data : ErrorData) :
    (records.foldl save_error_to_json data).errors
      = data.errors ++ records := by
  induction records generalizing data with
  | nil => simp
  | cons r rs ih =>
    rw [List.foldl_cons, ih]
    simp [save_error_to_json]

theorem foldl_save_total (records : List ErrorRecord) (data : ErrorData)
    (h : records ≠ []) :
    (records.foldl save_error_to_json data).session_info.total_errors
      = some (records.foldl save_error_to_json data).errors.length := by
  induction records generalizing data with
  | nil => exact absurd rfl h
  | cons r rs ih =>
    rw [List.foldl_cons]
    cases rs with
    | nil => simp [save_error_to_json]
    | cons r2 rs2 => exact ih (save_error_to_json data r) (by simp)

/-! ### The claims -/

/-- C1: for every pair of raw fault events handled in one session that
share the message truncated to 200 characters, the filename, the line and
the column — regardless of the channels (error types) that reported them —
the two events carry the same signature, the final ledger holds at most
one record with that signature, and handling an event whose signature is
already in seen_errors is a no-op returning the state unchanged. -/
theorem C1_shared_signature_persists_at_most_once (md5 : String → String)
    (events : List RawEvent) (e1 e2 : RawEvent)
    (h1 : e1 ∈ events) (h2 : e2 ∈ events)
    (hmsg : e1.err.take 200 = e2.err.take 200)
    (hfn : details_filename e1.error_details
      = details_filename e2.error_details)
    (hln : details_lineno e1.error_details = details_lineno e2.error_details)
    (hcn : details_colno e1.error_details = details_colno e2.error_details) :
    eventSignature md5 e1 = eventSignature md5 e2 ∧
    ((run_session md5 events).ledger.errors.countP
      (fun r => decide (r.error_signature = eventSignature md5 e1))) ≤ 1 ∧
    (∀ st : SessionState, eventSignature md5 e2 ∈ st.seen_errors →
      handleEvent md5 st e2 = st) := by
  refine ⟨?_, ?_, ?_⟩
  · exact generate_error_signature_congr md5 _ _ _ _ _ _ _ _ _ _
      hmsg hfn hln hcn
  · have hinv := sessionInv_foldl md5 events initSessionState sessionInv_init
    exact countP_sig_le_one _ _ hinv.2
  · intro st hst
    exact handle_error_of_seen md5 st _ _ _ _ _ hst

/-- Location details shared by the sample duplicate pair. -/
def sampleLocDetails : RawDetails :=
  { filename := some (.str "https://site.example/app.js")
  , lineno := some (.int 10), colno := some (.int 5) }

/-- A page-error report of the sample fault. -/
def samplePageEvent : RawEvent :=
  { page_url := "https://site.example/", png_name := "pageerror_1234.png"
  , err := "TypeError: x is undefined", error_type := "page_error"
  , error_details := some sampleLocDetails }

/-- A console-error report of the same fault. -/
def sampleConsoleEvent : RawEvent :=
  { page_url := "https://site.example/", png_name := "consoleerror_5678.png"
  , err := "TypeError: x is undefined", error_type := "console_error"
  , error_details := some sampleLocDetails }

theorem C1_witness :
    eventSignature (fun s => s) samplePageEvent
      = eventSignature (fun s => s) sampleConsoleEvent ∧
    ((run_session (fun s => s)
      [samplePageEvent, sampleConsoleEvent]).ledger.errors.countP
      (fun r => decide (r.error_signature
        = eventSignature (fun s => s) samplePageEvent))) ≤ 1 ∧
    (∀ st : SessionState,
      eventSignature (fun s => s) sampleConsoleEvent ∈ st.seen_errors →
      handleEvent (fun s => s) st sampleConsoleEvent = st) :=
  C1_shared_signature_persists_at_most_once (fun s => s)
    [samplePageEvent, sampleConsoleEvent] samplePageEvent sampleConsoleEvent
    (by decide) (by decide) rfl rfl rfl rfl

/-- C2: the error signature is a hash over exactly the four components —
truncated message, filename, line, column — and the error kind is not an
input: two reports of different kinds with equal components receive the
same signature. -/
theorem C2_signature_excludes_kind (md5 : String → String)
    (kind1 kind2 msg1 msg2 : String) (f1 f2 l1 l2 c1 c2 : PyVal)
    (hmsg : msg1.take 200 = msg2.take 200) (hf : f1 = f2) (hl : l1 = l2)
    (hc : c1 = c2) :
    generate_error_signature md5 kind1 msg1 f1 l1 c1
      = generate_error_signature md5 kind2 msg2 f2 l2 c2 :=
  generate_error_signature_congr md5 kind1 kind2 msg1 msg2 f1 f2 l1 l2 c1 c2
    hmsg hf hl hc

theorem C2_witness :
    generate_error_signature (fun s => s) "page_error"
      "ReferenceError: y is not defined" (.str "main.js") (.int 3) (.int 7)
    = generate_error_signature (fun s => s) "promise_rejection"
      "ReferenceError: y is not defined" (.str "main.js") (.int 3) (.int 7) :=
  C2_signature_excludes_kind (fun s => s) "page_error" "promise_rejection"
    "ReferenceError: y is not defined" "ReferenceError: y is not defined"
    (.str "main.js") (.str "main.js") (.int 3) (.int 3) (.int 7) (.int 7)
    rfl rfl rfl rfl

/-- C10: a line or column number equal to 0 contributes the empty string
to the signature exactly as None does, so an event with line 0 and an
otherwise-equal event with line None receive the same signature, and the
second of the two to be handled in a session is deduplicated against the
first. -/
theorem C10_zero_line_collapses_with_none (md5 : String → String)
    (t1 t2 msg : String) (fn ln cn : PyVal) :
    generate_error_signature md5 t1 msg fn (.int 0) cn
      = generate_error_signature md5 t2 msg fn PyVal.none cn ∧
    generate_error_signature md5 t1 msg fn ln (.int 0)
      = generate_error_signature md5 t2 msg fn ln PyVal.none ∧
    (∀ page_url png1 png2 : String,
      handle_error md5
        (handle_error md5 initSessionState page_url png1 msg t1
          (some { filename := some fn, lineno := some (.int 0)
                , colno := some cn }))
        page_url png2 msg t2
        (some { filename := some fn, lineno := some PyVal.none
              , colno := some cn })
      = handle_error md5 initSessionState page_url png1 msg t1
          (some { filename := some fn, lineno := some (.int 0)
                , colno := some cn })) := by
  refine ⟨rfl, rfl, ?_⟩
  intro page_url png1 png2
  apply handle_error_of_seen
  rw [handle_error_init_seen]
  simp only [List.mem_singleton]
  rfl

/-- C5 counterexample: the initialization write at session start persists
a session_info with no total_errors field at all, so right after that
write the ledger does not satisfy total_errors == errors.length. -/
theorem C5_counterexample_init_write :
    ¬ (initialize_error_json.session_info.total_errors
        = some initialize_error_json.errors.length) := by
  decide

/-- C5 (amended): after every ledger write performed by save_error_to_json
the persisted total_errors equals the length of the errors array, and
after N accepted records the reloaded ledger has errors.length == N with
total_errors == N; the initialization write, however, persists a
session_info without the total_errors field (it appears with the first
accepted record). -/
theorem C5_total_errors_matches_after_saves (data : ErrorData)
    (r : ErrorRecord) (records : List ErrorRecord) :
    ((save_error_to_json data r).session_info.total_errors
      = some (save_error_to_json data r).errors.length) ∧
    ((records.foldl save_error_to_json initialize_error_json).errors.length
      = records.length) ∧
    ((records.foldl save_error_to_json
        initialize_error_json).session_info.total_errors
      = if records.isEmpty then Option.none else some records.length) := by
  refine ⟨rfl, ?_, ?_⟩
  · rw [foldl_save_errors]
    simp [initialize_error_json]
  · cases records with
    | nil => rfl
    | cons r2 rs =>
      rw [foldl_save_total _ _ (by simp), foldl_save_errors]
      simp [initialize_error_json]

/-- C3 counterexample: with the navigation guard InProgress, a page error
arriving is handed to handle_error within the same callback invocation —
the pipeline persists a record at arrival time, before any recovery
flush runs. -/
theorem C3_counterexample_arrival_reaches_pipeline :
    ((on_page_error (fun s => s)
      { navigation_in_progress := true, navigation_errors := [] }
      initSessionState "https://site.example/away" "pageerror_1234.png"
      "ReferenceError: nav is not defined"
      Option.none).2.ledger.errors.length) = 1 := by
  decide

/-- C3 (amended): while the guard is InProgress, on_page_error and
on_console (for an "error"-type message) buffer the raw event tagged with
navigation context, and ALSO hand it directly to the error pipeline at
arrival time in the same invocation; it does not wait for the recovery
flush (which later re-submits the buffered events, deduplication making
that a no-op for events already recorded at arrival). -/
theorem C3_inprogress_buffers_tags_and_still_hands_over
    (md5 : String → String) (gs : GuardState) (st : SessionState)
    (page_url png err msg_text : String)
    (loc : Option (String × Int × Int))
    (hnav : gs.navigation_in_progress = true) :
    ((on_page_error md5 gs st page_url png err loc).1.navigation_errors
      = gs.navigation_errors
        ++ [{ error := err
            , details := located_error_details loc true page_url }]) ∧
    ((located_error_details loc true page_url).navigation_context = true) ∧
    ((on_page_error md5 gs st page_url png err loc).2
      = handle_error md5 st page_url png err "page_error"
          (some (located_error_details loc true page_url))) ∧
    ((on_console md5 gs st page_url png "error" msg_text
        loc).1.navigation_errors
      = gs.navigation_errors
        ++ [{ error := msg_text
            , details := located_error_details loc true page_url }]) ∧
    ((on_console md5 gs st page_url png "error" msg_text loc).2
      = handle_error md5 st page_url png msg_text "console_error"
          (some (located_error_details loc true page_url))) := by
  refine ⟨?_, ?_, ?_, ?_, ?_⟩ <;>
    simp [on_page_error, on_console, located_error_details, hnav]

theorem C3_witness :
    ((on_page_error (fun s => s)
      { navigation_in_progress := true, navigation_errors := [] }
      initSessionState "https://site.example/away" "pageerror_1234.png"
      "ReferenceError: nav is not defined"
      Option.none).1.navigation_errors
      = ([] : List BufferedNav)
        ++ [{ error := "ReferenceError: nav is not defined"
            , details := located_error_details Option.none true
                "https://site.example/away" }]) ∧
    ((located_error_details Option.none true
        "https://site.example/away").navigation_context = true) ∧
    ((on_page_error (fun s => s)
      { navigation_in_progress := true, navigation_errors := [] }
      initSessionState "https://site.example/away" "pageerror_1234.png"
      "ReferenceError: nav is not defined" Option.none).2
      = handle_error (fun s => s) initSessionState
          "https://site.example/away" "pageerror_1234.png"
          "ReferenceError: nav is not defined" "page_error"
          (some (located_error_details Option.none true
            "https://site.example/away"))) ∧
    ((on_console (fun s => s)
      { navigation_in_progress := true, navigation_errors := [] }
      initSessionState "https://site.example/away" "consoleerror_1.png"
      "error" "TypeError: t is null" Option.none).1.navigation_errors
      = ([] : List BufferedNav)
        ++ [{ error := "TypeError: t is null"
            , details := located_error_details Option.none true
                "https://site.example/away" }]) ∧
    ((on_console (fun s => s)
      { navigation_in_progress := true, navigation_errors := [] }
      initSessionState "https://site.example/away" "consoleerror_1.png"
      "error" "TypeError: t is null" Option.none).2
      = handle_error (fun s => s) initSessionState
          "https://site.example/away" "consoleerror_1.png"
          "TypeError: t is null" "console_error"
          (some (located_error_details Option.none true
            "https://site.example/away"))) :=
  C3_inprogress_buffers_tags_and_still_hands_over (fun s => s)
    { navigation_in_progress := true, navigation_errors := [] }
    initSessionState "https://site.example/away" "pageerror_1234.png"
    "ReferenceError: nav is not defined" "TypeError: t is null"
    Option.none rfl

/-- C4: on an off-origin navigation — the new URL's domain differs from
the origin URL's — handle_navigation always ends with
navigation_in_progress false (Idle); whenever recovery reports success the
committed URL equals the origin (the in-place reload, the only method that
keeps the current URL, is gated on the domains being equal and cannot
fire); and the pipeline state it leaves is exactly the flush of the
buffered events, whichever recovery methods fail. -/
theorem C4_offorigin_recovery_ends_idle (md5 : String → String)
    (env : NavEnv) (original_url : String) (gs : GuardState)
    (st : SessionState) (new_url : String) (buffered : List BufferedNav)
    (hoff : extract_domain new_url ≠ extract_domain original_url) :
    ((handle_navigation md5 env original_url gs st new_url
        buffered).guard.navigation_in_progress = false) ∧
    ((handle_navigation md5 env original_url gs st new_url
        buffered).return_success = true →
      (handle_navigation md5 env original_url gs st new_url
        buffered).page_url = original_url) ∧
    ((handle_navigation md5 env original_url gs st new_url
        buffered).session
      = flush_navigation_errors md5 st new_url buffered) := by
  have hne : new_url ≠ original_url := fun h => hoff (by rw [h])
  have hbeq : (extract_domain new_url == extract_domain original_url)
      = false := beq_eq_false_iff_ne.mpr hoff
  unfold handle_navigation
  rw [if_neg hne]
  dsimp only
  rcases env with ⟨m1, m2, m3, m4, m5⟩
  cases m1 <;> cases m2 <;> cases m3 <;> cases m4 <;> cases m5 <;>
    simp [hbeq]

theorem C4_witness :
    ((handle_navigation (fun s => s)
        ⟨false, false, false, false, false⟩ "https://origin.example/"
        ⟨false, []⟩ initSessionState "https://elsewhere.example/landing"
        []).guard.navigation_in_progress = false) ∧
    ((handle_navigation (fun s => s)
        ⟨false, false, false, false, false⟩ "https://origin.example/"
        ⟨false, []⟩ initSessionState "https://elsewhere.example/landing"
        []).return_success = true →
      (handle_navigation (fun s => s)
        ⟨false, false, false, false, false⟩ "https://origin.example/"
        ⟨false, []⟩ initSessionState "https://elsewhere.example/landing"
        []).page_url = "https://origin.example/") ∧
    ((handle_navigation (fun s => s)
        ⟨false, false, false, false, false⟩ "https://origin.example/"
        ⟨false, []⟩ initSessionState "https://elsewhere.example/landing"
        []).session
      = flush_navigation_errors (fun s => s) initSessionState
          "https://elsewhere.example/landing" []) :=
  C4_offorigin_recovery_ends_idle (fun s => s)
    ⟨false, false, false, false, false⟩ "https://origin.example/"
    ⟨false, []⟩ initSessionState "https://elsewhere.example/landing" []
    (by decide)

/-- An anchor whose href resolves to a different registrable domain than
the origin's. -/
def externalAnchor : RawElement :=
  { tag_name := "a", id := "ext", className := "nav-link"
  , text := "Partner site", href := "https://partner.example/home"
  , target := "", is_visible := true, is_enabled := true
  , dom_path := "a#ext" }

/-- An internal anchor configured to open a new browsing context. -/
def blankAnchor : RawElement :=
  { tag_name := "a", id := "open-new", className := "btn"
  , text := "Open in new tab", href := "https://site.example/page2"
  , target := "_blank", is_visible := true, is_enabled := true
  , dom_path := "a#open-new" }

/-- A visible enabled button, discovered after the anchors — so the
discovery loop leaves tag_name = "button" behind. -/
def plainButton : RawElement :=
  { tag_name := "button", id := "go", className := "btn"
  , text := "Go", href := "", target := "", is_visible := true
  , is_enabled := true, dom_path := "button#go" }

/-- C6 (code bug), evaluated at the failing input: with discovery order
[externalAnchor, blankAnchor, plainButton] and origin domain
site.example, all three elements are counted as discovered and the
external anchor is never clicked — but the internal anchor with
target="_blank" IS clicked, because the new-tab check at line 907 reads
the stale `tag_name` leaked from the discovery loop (here "button", the
last discovered element's tag) instead of the current element's tag, so
the check never fires. -/
theorem C6_blank_anchor_clicked_at_failing_input :
    ((click_all_links_and_buttons "site.example"
        [externalAnchor, blankAnchor, plainButton]).1 = 3) ∧
    ((click_all_links_and_buttons "site.example"
        [externalAnchor, blankAnchor, plainButton]).2.clicks
      = ["a#open-new", "button#go"]) ∧
    ("a#ext" ∉ (click_all_links_and_buttons "site.example"
        [externalAnchor, blankAnchor, plainButton]).2.clicks) := by
  refine ⟨by decide, by decide, by decide⟩

theorem rme_bound (discover : Nat → List String) (choose : Nat → Nat) :
    ∀ (n : Nat) (visited : List String) (ap ad : Nat),
      MAX_ACTIONS - ad ≤ n →
      (recursive_monkey_exploration discover choose visited ap ad).2
        ≤ ap + (MAX_ACTIONS - ad) := by
  intro n
  induction n with
  | zero =>
    intro visited ap ad h
    rw [recursive_monkey_exploration]
    rw [dif_pos (by omega : ad ≥ MAX_ACTIONS)]
    simp
  | succ n ih =>
    intro visited ap ad h
    rw [recursive_monkey_exploration]
    by_cases had : ad ≥ MAX_ACTIONS
    · rw [dif_pos had]
      simp
    · rw [dif_neg had]
      dsimp only
      split
      · simp
      · split
        · simp
        · exact le_trans (ih _ (ap + 1) (ad + 1) (by omega)) (by omega)

/-- C7: the Phase-C exploration loop performs at most MAX_ACTIONS
interactions.  From any intermediate state it performs at most the
remaining budget, and started the way the script starts it (fresh
counters, empty visited set) it performs at most MAX_ACTIONS; it is a
total function, so every run — whether it stops at the ceiling, on an
empty discovery, or with no unvisited element left — returns normally
with the visited set and the interaction count. -/
theorem C7_exploration_performs_at_most_max_actions
    (discover : Nat → List String) (choose : Nat → Nat)
    (visited : List String) (ap ad : Nat) :
    ((recursive_monkey_exploration discover choose visited ap ad).2
      ≤ ap + (MAX_ACTIONS - ad)) ∧
    ((recursive_monkey_exploration discover choose [] 0 0).2
      ≤ MAX_ACTIONS) := by
  constructor
  · exact rme_bound discover choose (MAX_ACTIONS - ad) visited ap ad le_rfl
  · simpa using rme_bound discover choose MAX_ACTIONS [] 0 0 le_rfl

theorem starts_with_marker_marked (s : String) :
    starts_with_marker (">>> " ++ s) = true := by
  unfold starts_with_marker
  rw [String.data_append]
  have h4 : (">>> " : String).data.length = 4 := by decide
  rw [show (4 : Nat) = (">>> " : String).data.length from h4.symm]
  simp

theorem starts_with_marker_plain (s : String) :
    starts_with_marker ("    " ++ s) = false := by
  unfold starts_with_marker
  rw [String.data_append]
  have h4 : ("    " : String).data.length = 4 := by decide
  rw [show (4 : Nat) = ("    " : String).data.length from h4.symm]
  simp

/-- C8: for an error whose line number lies within the fetched file, the
extracted context window spans from 30 lines before the error line
through 30 lines after it, clipped at the file's start and end — 61
rendered lines when nothing clips — and a rendered line starts with the
">>> " marker exactly when it is the error line. -/
theorem C8_context_window_bounds_and_marker (source_code : String)
    (line_number : Int) (h1 : 1 ≤ line_number)
    (h2 : line_number ≤ (py_split_newline source_code).length) :
    ((extract_code_context source_code line_number).length
      = (min ((py_split_newline source_code).length : Int)
          (line_number + 30) - max 1 (line_number - 30) + 1).toNat) ∧
    (31 ≤ line_number →
      line_number + 30 ≤ (py_split_newline source_code).length →
      (extract_code_context source_code line_number).length = 61) ∧
    (∀ (k : Nat)
      (hk : k < (extract_code_context source_code line_number).length),
      starts_with_marker
        ((extract_code_context source_code line_number).get ⟨k, hk⟩) = true
      ↔ max 1 (line_number - 30) + (k : Int) = line_number) := by
  have hlen : (extract_code_context source_code line_number).length
      = (min ((py_split_newline source_code).length : Int)
          (line_number + 30) - max 1 (line_number - 30) + 1).toNat := by
    simp only [extract_code_context, List.length_map, List.length_range']
    omega
  refine ⟨hlen, ?_, ?_⟩
  · intro h31 h30
    rw [hlen]
    omega
  · intro k hk
    have hs : ((max 0 (line_number - 31)).toNat : Int)
        = max 0 (line_number - 31) := Int.toNat_of_nonneg (by omega)
    have hget : (extract_code_context source_code line_number).get ⟨k, hk⟩
        = (if (((max 0 (line_number - 31)).toNat + k : Nat) : Int)
              = line_number - 1
           then ">>> " else "    ")
          ++ (py_split_newline source_code).getD
              ((max 0 (line_number - 31)).toNat + k) "" := by
      simp only [extract_code_context, List.get_eq_getElem,
        List.getElem_map, List.getElem_range', one_mul]
    rw [hget]
    by_cases hc : (((max 0 (line_number - 31)).toNat + k : Nat) : Int)
        = line_number - 1
    · rw [if_pos hc, starts_with_marker_marked]
      exact iff_of_true rfl (by omega)
    · rw [if_neg hc, starts_with_marker_plain]
      exact iff_of_false (by simp) (by omega)

theorem C8_witness :
    (1 ≤ (3 : Int)) ∧
    ((3 : Int) ≤ (py_split_newline "l1\nl2\nl3\nl4\nl5").length) ∧
    ((extract_code_context "l1\nl2\nl3\nl4\nl5" 3).length
      = (min ((py_split_newline "l1\nl2\nl3\nl4\nl5").length : Int)
          ((3 : Int) + 30) - max 1 ((3 : Int) - 30) + 1).toNat) ∧
    (∀ (k : Nat)
      (hk : k < (extract_code_context "l1\nl2\nl3\nl4\nl5" 3).length),
      starts_with_marker
        ((extract_code_context "l1\nl2\nl3\nl4\nl5" 3).get ⟨k, hk⟩) = true
      ↔ max 1 ((3 : Int) - 30) + (k : Int) = 3) := by
  have h := C8_context_window_bounds_and_marker "l1\nl2\nl3\nl4\nl5" 3
    (by decide) (by decide)
  exact ⟨by decide, by decide, h.1, h.2.2⟩

/-- C9 (code bug), evaluated at the failing input: a field reveals three
suggestions s0 s1 s2 and every re-probe returns three fresh handles
t0 t1 t2.  The loop makes exactly 3 click attempts before abandoning the
field, but every click targets a handle from the original snapshot: the
second click hits s1, which is not among the refreshed handles, because
the `suggestion = new_dropdown[j + 1]` reassignment is overwritten when
the for statement rebinds the loop variable from the original list. -/
theorem C9_clicks_target_original_snapshot :
    (test_input_suggestion_clicks ["s0", "s1", "s2"]
        (fun _ => ["t0", "t1", "t2"]) = ["s0", "s1", "s2"]) ∧
    ((test_input_suggestion_clicks ["s0", "s1", "s2"]
        (fun _ => ["t0", "t1", "t2"])).length = 3) ∧
    ("s1" ∉ (["t0", "t1", "t2"] : List String)) := by
  have hrun : test_input_suggestion_clicks ["s0", "s1", "s2"]
      (fun _ => ["t0", "t1", "t2"]) = ["s0", "s1", "s2"] := by
    simp [test_input_suggestion_clicks, suggestion_click_loop_go]
  exact ⟨hrun, by rw [hrun]; rfl, by decide⟩
